import Mathlib

/-!
Verification of the dept-chatbot repository.

The repository has two components:
* a Next.js proxy route handler (the `POST` function of `app/api/ask/route.js`),
  which validates a question, forwards it to a configured backend `/query`
  endpoint, and relays the backend's JSON response;
* a voice UI page (`frontend/app/page.js`) whose `askQuestion` handler posts the
  question to the proxy and updates the `answer`/`route`/`error`/`loading`
  state, and whose listening handlers drive the speech-recognition capability.

This file gives a shallow embedding of both, with JavaScript JSON values
modelled by the inductive `Json`, the possible outcomes of a `fetch` call
modelled explicitly, and the UI render lifecycle modelled by a step relation.
-/

namespace DeptChatbot

/-- JSON values, as produced by `request.json()` / `response.json()`. -/
inductive Json where
  | null
  | bool (b : Bool)
  | num (n : Int)
  | str (s : String)
  | arr (elems : List Json)
  | obj (fields : List (String × Json))

/-- Characters removed by JavaScript `String.prototype.trim` (the common
ASCII whitespace; the exotic Unicode space characters do not appear in this
development's inputs). -/
def jsWhitespace (c : Char) : Bool :=
  c = ' ' || c = '\t' || c = '\n' || c = '\r' || c = '\x0b' || c = '\x0c'

/-- Executable model of JavaScript `String.prototype.trim`: drop leading and
trailing whitespace. -/
def trimString (s : String) : String :=
  String.mk (((s.data.dropWhile jsWhitespace).reverse.dropWhile jsWhitespace).reverse)

/-- Field lookup in an association list of JSON object fields. -/
def findField (fields : List (String × Json)) (key : String) : Option Json :=
  match fields with
  | [] => none
  | (k, v) :: rest => if k = key then some v else findField rest key

/-- Property access `j?.key`: `some` the field value on an object that has the
field, `none` (JavaScript `undefined`) otherwise. -/
def Json.getField (j : Json) (key : String) : Option Json :=
  match j with
  | .obj fields => findField fields key
  | _ => none

/-- JavaScript truthiness of a JSON value: `null`, `false`, `0` and `""` are
falsy, everything else (arrays and objects included) is truthy. -/
def Json.truthy : Json → Bool
  | .null => false
  | .bool b => b
  | .num n => if n = 0 then false else true
  | .str s => if s = "" then false else true
  | .arr _ => true
  | .obj _ => true

/-! ## Proxy route (`app/api/ask/route.js`) -/

/-- The process environment variables the proxy reads: `none` models an unset
variable. -/
structure Env where
  BACKEND_BASE_URL : Option String
  BACKEND_API_KEY : Option String

/-- The configuration record returned by `backendConfig()`. -/
structure BackendSettings where
  baseUrl : String
  apiKey : String

/-- Embeds `backendConfig()`: `process.env.BACKEND_BASE_URL || "http://127.0.0.1:8001"`
and `process.env.BACKEND_API_KEY || ""`, where an unset variable is `undefined`
(falsy) and the empty string is also falsy. -/
def backendConfig (env : Env) : BackendSettings :=
  { baseUrl :=
      if env.BACKEND_BASE_URL.getD "" = "" then "http://127.0.0.1:8001"
      else env.BACKEND_BASE_URL.getD ""
    apiKey := env.BACKEND_API_KEY.getD "" }

/-- The outbound request the proxy hands to `fetch`. -/
structure OutboundRequest where
  url : String
  method : String
  headers : List (String × String)
  body : Json
  cache : String

/-- Result of the proxy's `fetch` of the backend: the promise either rejects
(network failure), or resolves with a status and a body that parses to a JSON
payload (`some`) or fails to parse (`none`). -/
inductive BackendOutcome where
  | fetchReject
  | response (status : Nat) (body : Option Json)

/-- What the `POST` handler produces: the HTTP response it returns, plus the
at-most-one outbound backend request it issued (`none` when no `fetch` ran). -/
structure ProxyResult where
  status : Nat
  body : Json
  outbound : Option OutboundRequest

/-- Embeds `const question = (body?.question || "").trim()`.  A missing or
falsy `question` field coerces to `""`; a truthy string is trimmed; calling
`.trim()` on a truthy non-string throws a `TypeError`, modelled as `none`. -/
def extractQuestion (body : Json) : Option String :=
  match body.getField "question" with
  | some v =>
      if v.truthy then
        match v with
        | .str s => some (trimString s)
        | _ => none
      else some ""
  | none => some ""

/-- The response of the outer `catch`: status 500 with a generic detail. -/
def serverFailure : ProxyResult :=
  { status := 500
    body := .obj [("detail", .str "Failed to process request.")]
    outbound := none }

/-- Embeds the part of `POST` from the `fetch` call onwards, for a validated
non-empty `question`.  The backend body falls back to
`{detail: "Invalid backend response."}` when parsing rejects; a 2xx backend
status (`response.ok`) relays the payload verbatim with status 200; otherwise
the backend's status is kept and the detail is `payload?.detail` when truthy,
else `"Backend request failed."`. -/
def forwardQuestion (env : Env) (question : String) (outcome : BackendOutcome) :
    ProxyResult :=
  let cfg := backendConfig env
  let hdrs :=
    if cfg.apiKey = "" then [("Content-Type", "application/json")]
    else [("Content-Type", "application/json"), ("X-API-Key", cfg.apiKey)]
  let outReq : OutboundRequest :=
    { url := cfg.baseUrl ++ "/query"
      method := "POST"
      headers := hdrs
      body := .obj [("question", .str question)]
      cache := "no-store" }
  match outcome with
  | .fetchReject =>
      { status := 500
        body := .obj [("detail", .str "Failed to process request.")]
        outbound := some outReq }
  | .response st mb =>
      let payload := mb.getD (.obj [("detail", .str "Invalid backend response.")])
      if 200 ≤ st ∧ st ≤ 299 then
        { status := 200, body := payload, outbound := some outReq }
      else
        let d : Json :=
          match payload.getField "detail" with
          | some v => if v.truthy then v else .str "Backend request failed."
          | none => .str "Backend request failed."
        { status := st, body := .obj [("detail", d)], outbound := some outReq }

/-- Embeds the `POST` handler of `app/api/ask/route.js`.  `reqBody` is the
result of `request.json()` (`none` when it rejects, which the outer catch turns
into a 500); an empty trimmed question is rejected with 400 before any
`fetch`; otherwise the question is forwarded. -/
def POST (env : Env) (reqBody : Option Json) (outcome : BackendOutcome) :
    ProxyResult :=
  match reqBody with
  | none => serverFailure
  | some body =>
      match extractQuestion body with
      | none => serverFailure
      | some question =>
          if question = "" then
            { status := 400
              body := .obj [("detail", .str "Question is required.")]
              outbound := none }
          else forwardQuestion env question outcome

/-! ## Voice UI (`frontend/app/page.js`) -/

/-- The `useState` fields of `HomePage` that the claims concern. -/
structure UIState where
  question : String
  answer : String
  route : String
  error : String
  listening : Bool
  loading : Bool
deriving DecidableEq

/-- The initial state of `HomePage`: every string state starts `""`, every
boolean starts `false`. -/
def initUIState : UIState :=
  { question := "", answer := "", route := "", error := "", listening := false
    loading := false }

/-- A JavaScript value caught by `askQuestion`'s `catch`: `null`/`undefined`, a
plain string, or an `Error` object carrying a `message`. -/
inductive CaughtError where
  | nullish
  | strVal (s : String)
  | errObj (message : String)

/-- Embeds `normalizeMessage`: falsy errors (including the empty string) and
`Error` objects with a falsy `message` map to `"Something went wrong."`. -/
def normalizeMessage : CaughtError → String
  | .nullish => "Something went wrong."
  | .strVal s => if s = "" then "Something went wrong." else s
  | .errObj m => if m = "" then "Something went wrong." else m

/-- The JSON body of a proxy response as `askQuestion` reads it: the fields
`data.answer`, `data.route` and `data.detail`, each possibly absent. -/
structure AnswerPayload where
  answer : Option String
  route : Option String
  detail : Option String

/-- Outcome of `askQuestion`'s `fetch` of `/api/ask`: the promise rejects
(network error, carrying the rejection's `message`), or `response.json()`
rejects, or a response with some status arrives and its body parses. -/
inductive FetchOutcome where
  | networkError (message : String)
  | jsonError (message : String)
  | response (status : Nat) (data : AnswerPayload)

/-- The state `askQuestion` produces right after passing the empty-question
guard: `setLoading(true); setError("")`, rendered before the `fetch` settles. -/
def askQuestionStart (s : UIState) : UIState :=
  { s with loading := true, error := "" }

/-- Embeds the rest of `askQuestion`, from the settling of the `fetch` on:
a 2xx response (`response.ok`) stores `data.answer || ""` and
`data.route || ""` and speaks a truthy answer; a non-2xx response throws
`Error(data?.detail || "Request failed.")`; every rejection lands in the
`catch`, which stores `normalizeMessage` of the error; the `finally` clears
`loading` on every path.  Returns the new state together with the text handed
to `speak` (`none` when nothing is spoken). -/
def askResolve (outcome : FetchOutcome) (s : UIState) : UIState × Option String :=
  match outcome with
  | .networkError m =>
      ({ s with error := normalizeMessage (.errObj m), loading := false }, none)
  | .jsonError m =>
      ({ s with error := normalizeMessage (.errObj m), loading := false }, none)
  | .response st data =>
      if 200 ≤ st ∧ st ≤ 299 then
        let ans := data.answer.getD ""
        ({ s with answer := ans, route := data.route.getD "", loading := false },
          if ans = "" then none else some ans)
      else
        let msg := if data.detail.getD "" = "" then "Request failed."
          else data.detail.getD ""
        ({ s with error := normalizeMessage (.errObj msg), loading := false }, none)

/-- Embeds `askQuestion(text)` end to end: a text that trims empty returns
immediately with the state untouched and nothing spoken; otherwise the start
transition runs and the given fetch outcome resolves it. -/
def askQuestion (text : String) (outcome : FetchOutcome) (s : UIState) :
    UIState × Option String :=
  if trimString text = "" then (s, none)
  else askResolve outcome (askQuestionStart s)

/-- Embeds `onStartListening` up to the point where control returns to the
event loop: the error is cleared first; when `createSpeechRecognition()`
returns `null` (capability absent) the not-supported error is stored and
nothing else happens; when the capability is present the handlers are attached
and `recognition.start()` is called, with `listening` still untouched (it only
changes in later recognition events). -/
def onStartListening (capabilityAvailable : Bool) (s : UIState) : UIState :=
  if capabilityAvailable then { s with error := "" }
  else { s with error := "Speech recognition is not supported in this browser." }

/-- Embeds `onStopListening`: `recognitionRef.current?.stop()` touches no state
field, then `listening` is set `false` unconditionally. -/
def onStopListening (s : UIState) : UIState :=
  { s with listening := false }

/-- Render condition of the loading indicator: `loading && ...`. -/
def rendersLoading (s : UIState) : Bool := s.loading

/-- Render condition of the error message: `error && ...`. -/
def rendersError (s : UIState) : Bool := if s.error = "" then false else true

/-- Render condition of the answer box: `answer && ...`. -/
def rendersAnswer (s : UIState) : Bool := if s.answer = "" then false else true

/-- How many of the three result displays the page shows in a state. -/
def displayCount (s : UIState) : Nat :=
  (if rendersLoading s then 1 else 0) + (if rendersError s then 1 else 0) +
    (if rendersAnswer s then 1 else 0)

/-- Embeds the message stored by `recognition.onerror`: the template literal
prefixes the platform error code with "Voice error: ", and a falsy code falls
back to "unknown". -/
def voiceErrorMessage (code : String) : String :=
  "Voice error: " ++ (if code = "" then "unknown" else code)

/-- Embeds `recognition.onresult`: the transcript (or `""` when absent) is
stored as the question and `askQuestion(transcript)` runs, whose start
transition fires unless the transcript trims empty.  No loading guard exists
on this path. -/
def askQuestionOnResult (transcript : String) (s : UIState) : UIState :=
  let s1 := { s with question := transcript }
  if trimString transcript = "" then s1 else askQuestionStart s1

/-- The full page state: the `useState` fields together with whether a
recognition session with attached handlers exists whose callbacks may still
fire (`recognitionRef` holding a started session). -/
structure PageState where
  ui : UIState
  recActive : Bool

/-- The initial page state: initial `useState` fields, no recognition
session. -/
def initPageState : PageState :=
  { ui := initUIState, recActive := false }

/-- One render-to-render transition of `HomePage`.  The click handlers carry
the guards of their buttons: `Start Voice Question` is rendered only while not
listening and is disabled while loading, `Stop Listening` is rendered only
while listening, `Ask Typed Question` is disabled while loading or with an
empty trimmed question (but not while listening).  The callbacks of an active
recognition session — `onstart`, `onerror`, `onend`, `onresult` — can fire
whenever a session is live, with no loading guard, and `onresult` invokes
`askQuestion` directly.  In-flight fetches are not counted, so a resolution
step may occur at any time (an over-approximation: the program has no
in-flight de-duplication, and overlapping submissions can resolve while
`loading` is already false). -/
inductive PageStep : PageState → PageState → Prop where
  | startListenAvailable (p : PageState) :
      p.ui.loading = false → p.ui.listening = false →
      PageStep p { ui := onStartListening true p.ui, recActive := true }
  | startListenUnavailable (p : PageState) :
      p.ui.loading = false → p.ui.listening = false →
      PageStep p { ui := onStartListening false p.ui, recActive := p.recActive }
  | stopListenClick (p : PageState) :
      p.ui.listening = true →
      PageStep p { ui := onStopListening p.ui, recActive := p.recActive }
  | voiceStart (p : PageState) :
      p.recActive = true →
      PageStep p { ui := { p.ui with listening := true }, recActive := p.recActive }
  | voiceError (code : String) (p : PageState) :
      p.recActive = true →
      PageStep p
        { ui := { p.ui with listening := false, error := voiceErrorMessage code }
          recActive := false }
  | voiceEnd (p : PageState) :
      p.recActive = true →
      PageStep p { ui := { p.ui with listening := false }, recActive := false }
  | voiceResult (transcript : String) (p : PageState) :
      p.recActive = true →
      PageStep p { ui := askQuestionOnResult transcript p.ui, recActive := p.recActive }
  | askTypedClick (p : PageState) :
      p.ui.loading = false → trimString p.ui.question ≠ "" →
      PageStep p { ui := askQuestionStart p.ui, recActive := p.recActive }
  | askResolveStep (outcome : FetchOutcome) (p : PageState) :
      PageStep p { ui := (askResolve outcome p.ui).1, recActive := p.recActive }
  | editQuestion (t : String) (p : PageState) :
      PageStep p { ui := { p.ui with question := t }, recActive := p.recActive }

/-- A page state reachable from the initial state. -/
def PageReachable (p : PageState) : Prop :=
  Relation.ReflTransGen PageStep initPageState p

/-- The intermediate reachable state after a first successful submission. -/
def c1MidState : UIState :=
  (askResolve (.response 200 ⟨some "A", some "r", none⟩)
    (askQuestionStart initUIState)).1

/-- The page state after typing "q" into the question box. -/
def c1Page1 : PageState :=
  { ui := { initUIState with question := "q" }, recActive := false }

/-- The page state after clicking `Ask Typed Question`. -/
def c1Page2 : PageState :=
  { ui := askQuestionStart c1Page1.ui, recActive := false }

/-- The page state after the first submission resolves successfully. -/
def c1Page3 : PageState :=
  { ui := (askResolve (.response 200 ⟨some "A", some "r", none⟩) c1Page2.ui).1
    recActive := false }

/-- The page state after clicking `Ask Typed Question` a second time. -/
def c1Page4 : PageState :=
  { ui := askQuestionStart c1Page3.ui, recActive := false }

/-- The reachable page state after a successful submission followed by a
failed one: the stored answer survives while an error is set. -/
def c1BadPage : PageState :=
  { ui := (askResolve (.response 400 ⟨none, none, some "X"⟩) c1Page4.ui).1
    recActive := false }

/-! ## Helper lemmas -/

theorem forwardQuestion_outbound (env : Env) (q : String)
    (outcome : BackendOutcome) :
    (forwardQuestion env q outcome).outbound = some
      { url := (backendConfig env).baseUrl ++ "/query"
        method := "POST"
        headers :=
          if (backendConfig env).apiKey = "" then
            [("Content-Type", "application/json")]
          else
            [("Content-Type", "application/json"),
              ("X-API-Key", (backendConfig env).apiKey)]
        body := .obj [("question", .str q)]
        cache := "no-store" } := by
  cases outcome with
  | fetchReject => rfl
  | response st mb =>
      simp only [forwardQuestion]
      split <;> rfl

theorem POST_forward (env : Env) (body : Json) (q : String)
    (outcome : BackendOutcome) (h1 : extractQuestion body = some q)
    (h2 : q ≠ "") :
    POST env (some body) outcome = forwardQuestion env q outcome := by
  simp [POST, h1, h2]

theorem askResolve_loading (outcome : FetchOutcome) (s : UIState) :
    ((askResolve outcome s).1).loading = false := by
  cases outcome with
  | networkError m => rfl
  | jsonError m => rfl
  | response st data =>
      simp only [askResolve]
      split <;> rfl

/-! ## Claims about the proxy route -/

/-- C4: for every request body whose `question` value trims to the empty
string, the proxy responds with status 400 and body
`detail = "Question is required."`, and issues no outbound backend request. -/
theorem c4_empty_question_rejected (env : Env) (body : Json)
    (outcome : BackendOutcome) (h : extractQuestion body = some "") :
    POST env (some body) outcome =
      { status := 400
        body := .obj [("detail", .str "Question is required.")]
        outbound := none } := by
  simp [POST, h]

/-- Witness for C4: a whitespace-only question is rejected with 400 and no
backend request. -/
theorem c4_empty_question_rejected_witness :
    extractQuestion (Json.obj [("question", Json.str "   ")]) = some "" ∧
    POST ⟨none, none⟩ (some (Json.obj [("question", Json.str "   ")]))
        .fetchReject =
      { status := 400
        body := .obj [("detail", .str "Question is required.")]
        outbound := none } :=
  ⟨by decide, c4_empty_question_rejected ⟨none, none⟩ _ _ (by decide)⟩

/-- C5: for every request body with a non-empty trimmed question, the proxy
issues exactly one POST to `baseUrl ++ "/query"` with JSON body
`question = q`; the `X-API-Key` header is present exactly when an API key is
configured; and with `BACKEND_BASE_URL` unset the outbound URL uses the
default base `http://127.0.0.1:8001`. -/
theorem c5_forwarding (env : Env) (body : Json) (q : String)
    (outcome : BackendOutcome) (h1 : extractQuestion body = some q)
    (h2 : q ≠ "") :
    (POST env (some body) outcome).outbound.map OutboundRequest.method =
      some "POST" ∧
    (POST env (some body) outcome).outbound.map OutboundRequest.url =
      some ((backendConfig env).baseUrl ++ "/query") ∧
    (POST env (some body) outcome).outbound.map OutboundRequest.body =
      some (Json.obj [("question", Json.str q)]) ∧
    (POST env (some body) outcome).outbound.map OutboundRequest.headers =
      some (if (backendConfig env).apiKey = "" then
          [("Content-Type", "application/json")]
        else
          [("Content-Type", "application/json"),
            ("X-API-Key", (backendConfig env).apiKey)]) ∧
    (POST { env with BACKEND_BASE_URL := none } (some body)
        outcome).outbound.map OutboundRequest.url =
      some "http://127.0.0.1:8001/query" := by
  rw [POST_forward env body q outcome h1 h2,
    POST_forward { env with BACKEND_BASE_URL := none } body q outcome h1 h2,
    forwardQuestion_outbound, forwardQuestion_outbound]
  refine ⟨rfl, rfl, rfl, rfl, ?_⟩
  simp [backendConfig]

/-- Witness for C5: with an API key configured and the base URL unset, the
outbound request goes to the default base with the key header attached. -/
theorem c5_forwarding_witness :
    (POST ⟨none, some "k"⟩ (some (Json.obj [("question", Json.str " hi ")]))
        (.response 200 (some (Json.obj [("answer", Json.str "A")])))).outbound.map
      OutboundRequest.method = some "POST" ∧
    (POST ⟨none, some "k"⟩ (some (Json.obj [("question", Json.str " hi ")]))
        (.response 200 (some (Json.obj [("answer", Json.str "A")])))).outbound.map
      OutboundRequest.url =
      some ((backendConfig ⟨none, some "k"⟩).baseUrl ++ "/query") ∧
    (POST ⟨none, some "k"⟩ (some (Json.obj [("question", Json.str " hi ")]))
        (.response 200 (some (Json.obj [("answer", Json.str "A")])))).outbound.map
      OutboundRequest.body = some (Json.obj [("question", Json.str "hi")]) ∧
    (POST ⟨none, some "k"⟩ (some (Json.obj [("question", Json.str " hi ")]))
        (.response 200 (some (Json.obj [("answer", Json.str "A")])))).outbound.map
      OutboundRequest.headers =
      some (if (backendConfig ⟨none, some "k"⟩).apiKey = "" then
          [("Content-Type", "application/json")]
        else
          [("Content-Type", "application/json"),
            ("X-API-Key", (backendConfig ⟨none, some "k"⟩).apiKey)]) ∧
    (POST { BACKEND_BASE_URL := none, BACKEND_API_KEY := some "k" }
        (some (Json.obj [("question", Json.str " hi ")]))
        (.response 200 (some (Json.obj [("answer", Json.str "A")])))).outbound.map
      OutboundRequest.url = some "http://127.0.0.1:8001/query" := by
  have h := c5_forwarding ⟨none, some "k"⟩
    (Json.obj [("question", Json.str " hi ")]) "hi"
    (.response 200 (some (Json.obj [("answer", Json.str "A")])))
    (by decide) (by decide)
  exact h

/-- C6: for every backend response with a 2xx status whose body parses, the
proxy responds with status 200 and relays the backend payload verbatim. -/
theorem c6_success_relay (env : Env) (body : Json) (q : String) (st : Nat)
    (payload : Json) (h1 : extractQuestion body = some q) (h2 : q ≠ "")
    (h3 : 200 ≤ st) (h4 : st ≤ 299) :
    (POST env (some body) (.response st (some payload))).status = 200 ∧
    (POST env (some body) (.response st (some payload))).body = payload := by
  rw [POST_forward env body q _ h1 h2]
  simp [forwardQuestion, h3, h4]

/-- Witness for C6: a 204 backend response carrying a parsed payload is
relayed verbatim with status 200. -/
theorem c6_success_relay_witness :
    (POST ⟨none, none⟩ (some (Json.obj [("question", Json.str "hi")]))
        (.response 204 (some (Json.obj [("answer", Json.str "A"),
          ("route", Json.str "r")])))).status = 200 ∧
    (POST ⟨none, none⟩ (some (Json.obj [("question", Json.str "hi")]))
        (.response 204 (some (Json.obj [("answer", Json.str "A"),
          ("route", Json.str "r")])))).body =
      Json.obj [("answer", Json.str "A"), ("route", Json.str "r")] :=
  c6_success_relay ⟨none, none⟩ _ "hi" 204 _ (by decide) (by decide)
    (by decide) (by decide)

/-- C2 counterexample: a backend response with status 201 and an unparsable
body makes the proxy answer with status 200, which is neither 500 nor the
backend's own status 201. -/
theorem c2_counterexample :
    (POST ⟨none, none⟩ (some (Json.obj [("question", Json.str "hi")]))
        (.response 201 none)).status = 200 ∧
    ¬((POST ⟨none, none⟩ (some (Json.obj [("question", Json.str "hi")]))
        (.response 201 none)).status = 500 ∨
      (POST ⟨none, none⟩ (some (Json.obj [("question", Json.str "hi")]))
        (.response 201 none)).status = 201) := by
  decide

/-- C2 (amended): for every backend response whose body fails to parse as
JSON, the proxy returns status 200 when the backend status is 2xx and the
backend's own status otherwise, always with the generic body
`detail = "Invalid backend response."`, and never propagates an unhandled
exception (`POST` is a total function). -/
theorem c2_unparsable_backend_generic (env : Env) (body : Json) (q : String)
    (st : Nat) (h1 : extractQuestion body = some q) (h2 : q ≠ "") :
    (POST env (some body) (.response st none)).status =
      (if 200 ≤ st ∧ st ≤ 299 then 200 else st) ∧
    (POST env (some body) (.response st none)).body =
      Json.obj [("detail", Json.str "Invalid backend response.")] := by
  rw [POST_forward env body q _ h1 h2]
  constructor
  · simp only [forwardQuestion]
    split <;> rfl
  · simp only [forwardQuestion]
    split <;> rfl

/-- Witness for C2 (amended): a 503 backend response with an unparsable body
is relayed as 503 with the generic detail. -/
theorem c2_unparsable_backend_generic_witness :
    (POST ⟨none, none⟩ (some (Json.obj [("question", Json.str "hi")]))
        (.response 503 none)).status = (if 200 ≤ 503 ∧ 503 ≤ 299 then 200 else 503) ∧
    (POST ⟨none, none⟩ (some (Json.obj [("question", Json.str "hi")]))
        (.response 503 none)).body =
      Json.obj [("detail", Json.str "Invalid backend response.")] :=
  c2_unparsable_backend_generic ⟨none, none⟩ _ "hi" 503 (by decide) (by decide)

/-- C10: the proxy's behaviour depends on the request body only through the
trimmed `question` value: two bodies with the same trimmed question produce
identical proxy results (same response, same outbound request), and the
forwarded body is exactly the object `question = q`. -/
theorem c10_question_determines_proxy (env : Env) (outcome : BackendOutcome)
    (b1 b2 : Json) (q : String) (h1 : extractQuestion b1 = some q)
    (h2 : extractQuestion b2 = some q) (h3 : q ≠ "") :
    POST env (some b1) outcome = POST env (some b2) outcome ∧
    (POST env (some b1) outcome).outbound.map OutboundRequest.body =
      some (Json.obj [("question", Json.str q)]) := by
  rw [POST_forward env b1 q outcome h1 h3, POST_forward env b2 q outcome h2 h3,
    forwardQuestion_outbound]
  exact ⟨rfl, rfl⟩

/-- Witness for C10: a body with an extra field and a body with only the
(untrimmed) question produce identical proxy results. -/
theorem c10_question_determines_proxy_witness :
    POST ⟨none, none⟩ (some (Json.obj [("question", Json.str " hi "),
        ("extra", Json.num 7)])) (.response 200 (some Json.null)) =
      POST ⟨none, none⟩ (some (Json.obj [("question", Json.str "hi")]))
        (.response 200 (some Json.null)) ∧
    (POST ⟨none, none⟩ (some (Json.obj [("question", Json.str " hi "),
        ("extra", Json.num 7)])) (.response 200 (some Json.null))).outbound.map
      OutboundRequest.body = some (Json.obj [("question", Json.str "hi")]) :=
  c10_question_determines_proxy ⟨none, none⟩ _ _ _ "hi" (by decide) (by decide)
    (by decide)

/-! ## Claims about the voice UI -/

/-- C3: for every input text that passes the empty-question guard and every
outcome of the fetch, the submission resolves through `askResolve` applied to
the started state, the started state has `loading = true`, and the final state
has `loading = false`. -/
theorem c3_loading_cleared (text : String) (outcome : FetchOutcome)
    (s : UIState) (h : trimString text ≠ "") :
    askQuestion text outcome s = askResolve outcome (askQuestionStart s) ∧
    (askQuestionStart s).loading = true ∧
    ((askQuestion text outcome s).1).loading = false := by
  have e : askQuestion text outcome s = askResolve outcome (askQuestionStart s) := by
    simp [askQuestion, h]
  refine ⟨e, rfl, ?_⟩
  rw [e]
  exact askResolve_loading outcome (askQuestionStart s)

/-- Witness for C3: a network-failing submission still ends with
`loading = false`. -/
theorem c3_loading_cleared_witness :
    askQuestion "hi" (.networkError "Failed to fetch") initUIState =
      askResolve (.networkError "Failed to fetch") (askQuestionStart initUIState) ∧
    (askQuestionStart initUIState).loading = true ∧
    ((askQuestion "hi" (.networkError "Failed to fetch") initUIState).1).loading
      = false :=
  c3_loading_cleared "hi" (.networkError "Failed to fetch") initUIState
    (by decide)

/-- C7 counterexample: a 200 response whose `answer` is the empty string and
whose `route` is `"r"` resolves normally, yet nothing is handed to `speak` —
speech playback is not triggered for every 200 response with answer and
route fields. -/
theorem c7_counterexample :
    (askQuestion "q" (.response 200 ⟨some "", some "r", none⟩)
        initUIState).2 = none ∧
    ((askQuestion "q" (.response 200 ⟨some "", some "r", none⟩)
        initUIState).1).loading = false ∧
    ((askQuestion "q" (.response 200 ⟨some "", some "r", none⟩)
        initUIState).1).answer = "" ∧
    ((askQuestion "q" (.response 200 ⟨some "", some "r", none⟩)
        initUIState).1).route = "r" ∧
    ((askQuestion "q" (.response 200 ⟨some "", some "r", none⟩)
        initUIState).1).error = "" := by
  decide

/-- C7 (amended): for every submission whose proxy response has status 200 and
body with answer `a` and route `r`, the state after resolution has
`loading = false`, `answer = a`, `route = r`, `error` empty, and speech
playback of the answer is triggered exactly when the answer is non-empty. -/
theorem c7_success_updates_state (text a r : String) (s : UIState)
    (h : trimString text ≠ "") :
    ((askQuestion text (.response 200 ⟨some a, some r, none⟩) s).1).loading
      = false ∧
    ((askQuestion text (.response 200 ⟨some a, some r, none⟩) s).1).answer = a ∧
    ((askQuestion text (.response 200 ⟨some a, some r, none⟩) s).1).route = r ∧
    ((askQuestion text (.response 200 ⟨some a, some r, none⟩) s).1).error = "" ∧
    (askQuestion text (.response 200 ⟨some a, some r, none⟩) s).2 =
      (if a = "" then none else some a) := by
  simp [askQuestion, h, askResolve, askQuestionStart]

/-- Witness for C7 (amended): a 200 response with a non-empty answer updates
the state and speaks the answer. -/
theorem c7_success_updates_state_witness :
    ((askQuestion "q" (.response 200 ⟨some "A", some "r", none⟩)
        initUIState).1).loading = false ∧
    ((askQuestion "q" (.response 200 ⟨some "A", some "r", none⟩)
        initUIState).1).answer = "A" ∧
    ((askQuestion "q" (.response 200 ⟨some "A", some "r", none⟩)
        initUIState).1).route = "r" ∧
    ((askQuestion "q" (.response 200 ⟨some "A", some "r", none⟩)
        initUIState).1).error = "" ∧
    (askQuestion "q" (.response 200 ⟨some "A", some "r", none⟩)
        initUIState).2 = (if "A" = "" then none else some "A") :=
  c7_success_updates_state "q" "A" "r" initUIState (by decide)

/-- C8: for every submission whose proxy response has status 400 and body with
non-empty detail `X`, the state after resolution has `error = X` and `answer`
unchanged. -/
theorem c8_error_shows_detail (text X : String) (s : UIState)
    (h1 : trimString text ≠ "") (h2 : X ≠ "") :
    ((askQuestion text (.response 400 ⟨none, none, some X⟩) s).1).error = X ∧
    ((askQuestion text (.response 400 ⟨none, none, some X⟩) s).1).answer
      = s.answer := by
  simp [askQuestion, h1, askResolve, askQuestionStart, normalizeMessage, h2]

/-- Witness for C8: a 400 response with detail keeps a previously stored
answer while showing the detail as the error. -/
theorem c8_error_shows_detail_witness :
    ((askQuestion "q" (.response 400 ⟨none, none, some "Question is required."⟩)
        c1MidState).1).error = "Question is required." ∧
    ((askQuestion "q" (.response 400 ⟨none, none, some "Question is required."⟩)
        c1MidState).1).answer = c1MidState.answer :=
  c8_error_shows_detail "q" "Question is required." c1MidState (by decide)
    (by decide)

/-- C9: whenever the speech-recognition capability is absent,
`onStartListening` stores the not-supported message as the error and leaves
`listening` untouched, so `listening` never becomes true through it. -/
theorem c9_capability_absent (s : UIState) :
    (onStartListening false s).error =
      "Speech recognition is not supported in this browser." ∧
    (onStartListening false s).listening = s.listening :=
  ⟨rfl, rfl⟩

theorem isPrefixOf_append_self (l m : List Char) :
    List.isPrefixOf l (l ++ m) = true := by
  induction l with
  | nil => simp
  | cons c cs ih => simp [List.isPrefixOf, ih]

theorem voiceErrorMessage_tagged (code : String) :
    List.isPrefixOf ("Voice error: ".data) (voiceErrorMessage code).data
      = true := by
  simp only [voiceErrorMessage, String.data_append]
  exact isPrefixOf_append_self _ _

/-- C1 counterexample: after a successful submission followed by a failed one,
the page reaches a state where the error message and the answer box are both
rendered, so the page does not show at most one of the three result displays
at every reachable state. -/
theorem c1_counterexample :
    PageReachable c1BadPage ∧ rendersError c1BadPage.ui = true ∧
    rendersAnswer c1BadPage.ui = true ∧ displayCount c1BadPage.ui = 2 := by
  refine ⟨?_, by decide, by decide, by decide⟩
  have h1 : PageStep initPageState c1Page1 :=
    PageStep.editQuestion "q" initPageState
  have h2 : PageStep c1Page1 c1Page2 :=
    PageStep.askTypedClick c1Page1 (by decide) (by decide)
  have h3 : PageStep c1Page2 c1Page3 :=
    PageStep.askResolveStep (.response 200 ⟨some "A", some "r", none⟩) c1Page2
  have h4 : PageStep c1Page3 c1Page4 :=
    PageStep.askTypedClick c1Page3 (by decide) (by decide)
  have h5 : PageStep c1Page4 c1BadPage :=
    PageStep.askResolveStep (.response 400 ⟨none, none, some "X"⟩) c1Page4
  exact Relation.ReflTransGen.tail (Relation.ReflTransGen.tail
    (Relation.ReflTransGen.tail (Relation.ReflTransGen.tail
      (Relation.ReflTransGen.tail Relation.ReflTransGen.refl h1) h2) h3) h4) h5

/-- C1 (amended): the three result displays are not mutually exclusive, but at
every reachable page state the submission flow alone never pairs the loading
indicator with an error message: whenever the loading indicator is shown, the
error display is either empty (a submission start clears it and a resolution
clears `loading`) or holds a recognizer-reported message prefixed
"Voice error: " — only a recognition-session `onerror` callback can fire while
a submission is pending; the answer box keeps a previously stored answer and
can be rendered alongside either display. -/
theorem c1_loading_with_error_only_from_voice (p : PageState)
    (h : PageReachable p) :
    p.ui.loading = true →
    p.ui.error = "" ∨
      List.isPrefixOf ("Voice error: ".data) p.ui.error.data = true := by
  induction h with
  | refl => intro _; exact Or.inl rfl
  | tail _ hstep ih =>
      cases hstep with
      | startListenAvailable p' hl hlis =>
          intro hload
          simp [onStartListening, hl] at hload
      | startListenUnavailable p' hl hlis =>
          intro hload
          simp [onStartListening, hl] at hload
      | stopListenClick p' hlis =>
          intro hload
          exact ih hload
      | voiceStart p' hrec =>
          intro hload
          exact ih hload
      | voiceError code p' hrec =>
          intro _
          exact Or.inr (voiceErrorMessage_tagged code)
      | voiceEnd p' hrec =>
          intro hload
          exact ih hload
      | voiceResult t p' hrec =>
          intro hload
          by_cases ht : trimString t = ""
          · simp only [askQuestionOnResult, ht, if_pos] at hload ⊢
            exact ih hload
          · simp [askQuestionOnResult, ht, askQuestionStart]
      | askTypedClick p' hl hq =>
          intro _
          exact Or.inl rfl
      | askResolveStep outcome p' =>
          intro hload
          simp [askResolve_loading] at hload
      | editQuestion t p' =>
          intro hload
          exact ih hload

/-- Witness for C1 (amended): the state right after a typed submission start
is reachable, has the loading indicator on, and its error display is empty or
a voice error. -/
theorem c1_loading_with_error_only_from_voice_witness :
    c1Page2.ui.error = "" ∨
      List.isPrefixOf ("Voice error: ".data) c1Page2.ui.error.data = true :=
  c1_loading_with_error_only_from_voice c1Page2
    (Relation.ReflTransGen.tail
      (Relation.ReflTransGen.tail Relation.ReflTransGen.refl
        (PageStep.editQuestion "q" initPageState))
      (PageStep.askTypedClick c1Page1 (by decide) (by decide))) rfl

end DeptChatbot
